import Mathlib

/-!
Shallow embedding of the `backup_n_restore` MongoDB-to-S3 backup tool
(`src/backup_n_restore/__init__.py`, driven by `src/db_backup.py`).

The object store (S3) is modelled as an association list of key/value
pairs, most recent write first, so a write is a cons and a read is the
first matching entry.  Documents carry their serialized form (the result
of `bson.json_util.dumps(doc)`) together with the scalar fields relevant
to key extraction, here integer-valued.  Python string helpers that the
source uses (`str.strip`, `str.split('-')`, `str.lower`, `json` parsing
of the checkpoint value, CPython `sys.getsizeof` on an ASCII string) are
modelled by executable character-level functions.
-/

namespace BackupNRestore

/-- Object store contents: key/value pairs, most recent write first. -/
abbrev S3 := List (String × String)

/-- Read the current value stored under a key (first matching entry). -/
def s3Lookup (s3 : S3) (key : String) : Option String :=
  (s3.find? (fun p => p.1 = key)).map (fun p => p.2)

/-- Embeds `put_s3_data`: overwrite the blob under a key. -/
def put_s3_data (s3 : S3) (file_key : String) (data : String) : S3 :=
  (file_key, data) :: s3

/-- Embeds `get_s3_data`: read a blob, failing (boto3 raises) when the key is absent. -/
def get_s3_data (s3 : S3) (file_key : String) : Except String String :=
  match s3Lookup s3 file_key with
  | some d => Except.ok d
  | none => Except.error "ObjectNotFound"

/-- Embeds the constant `FULL_BACKUP = 'full'`. -/
def FULL_BACKUP : String := "full"

/-- Embeds the constant `INCREMENTAL_BACKUP = 'incremental'`. -/
def INCREMENTAL_BACKUP : String := "incremental"

/-- Embeds the constant `MONGO_DB_ID_FIELD = '_id'`. -/
def MONGO_DB_ID_FIELD : String := "_id"

/-- Embeds the constant `LAST_ID_FILE_NAME = 'last_key.txt'`. -/
def LAST_ID_FILE_NAME : String := "last_key.txt"

/-- A document: its serialized form `body` (the result of `dumps(doc)`)
and its scalar fields, used for key extraction and query filtering. -/
structure Doc where
  body : String
  fields : List (String × Int)
deriving DecidableEq

/-- Embeds Python `doc.get(key_field)`: the field's value, or missing. -/
def Doc.get (d : Doc) (f : String) : Option Int :=
  ((d.fields.find? (fun p => p.1 = f)).map (fun p => p.2))

/-- Embeds `dumps(doc.get(key_field))`: `bson.json_util.dumps` of an
integer field value renders its decimal form, and of Python `None`
renders the JSON literal `null`. -/
def dumps_key : Option Int → String
  | none => "null"
  | some v => toString v

/-- A MongoDB query as built by the source: either the empty filter or
a single-field filter of shape `query[key_field] = {'$gt': v}` where `v`
is the deserialized checkpoint (an integer, or `None`). -/
inductive Query where
  | empty : Query
  | gtOn (field : String) (value : Option Int) : Query
deriving DecidableEq

/-- MongoDB match semantics for the queries the source builds: the empty
filter matches every document; a `$gt` filter matches a document exactly
when the field is present and strictly greater (a `$gt: null` comparison
matches no document, and a missing field never matches a range filter). -/
def matches_query (q : Query) (d : Doc) : Bool :=
  match q with
  | Query.empty => true
  | Query.gtOn f v =>
    match v, d.get f with
    | some k, some x => decide (k < x)
    | _, _ => false

/-- Embeds `APP_DB[collection_name].find(query)`: the store returns the
documents matching the query, in the collection's cursor order. -/
def find (docs : List Doc) (q : Query) : List Doc :=
  docs.filter (matches_query q)

/-- Embeds CPython `sys.getsizeof` on the accumulator string: for a
compact ASCII `str` (which `json_util.dumps` with its default
`ensure_ascii` always produces) this is the 49-byte object header plus
one byte per character. -/
def getsizeof (s : String) : Nat := 49 + s.length

/-- One yielded triple of `get_collection_data`:
`(serialized chunk, last_key, count)`. -/
abbrev Chunk := String × Option String × Nat

/-- Embeds the loop body of the generator `get_collection_data`,
carrying its loop state `(data, is_first, last_key, count)`.  On each
document the serialized body is appended (with a comma-space separator
after the first), `last_key` becomes the serialized key field of that
document, `count` is incremented, and when `getsizeof(data)` exceeds the
limit the chunk is closed and yielded and `data`, `is_first`, `last_key`
are reset - but `count` is not.  After the cursor is exhausted the final
chunk is yielded unconditionally. -/
def get_collection_data_go (key_field : String) (limit : Nat) :
    List Doc → String → Bool → Option String → Nat → List Chunk
  | [], data, _, last_key, count => [(data ++ "]", last_key, count)]
  | doc :: rest, data, is_first, _, count =>
    let data' := if is_first then data ++ doc.body else data ++ ", " ++ doc.body
    let last_key' := some (dumps_key (doc.get key_field))
    let count' := count + 1
    if limit < getsizeof data' then
      (data' ++ "]", last_key', count') ::
        get_collection_data_go key_field limit rest "[" true none count'
    else
      get_collection_data_go key_field limit rest data' false last_key' count'

/-- Embeds the generator `get_collection_data`: serialize the documents
matching the query into size-bounded chunks. -/
def get_collection_data (docs : List Doc) (query : Query) (key_field : String)
    (limit : Nat) : List Chunk :=
  get_collection_data_go key_field limit (find docs query) "[" true none 0

/-- Embeds `get_s3_file_key`. -/
def get_s3_file_key (file : String) (folder : String) : String :=
  folder ++ "/" ++ file ++ ".bak"

/-- Embeds `get_last_saved_key`. -/
def get_last_saved_key (s3 : S3) (folder : String) : Except String String :=
  get_s3_data s3 (folder ++ "/" ++ LAST_ID_FILE_NAME)

/-- Embeds `save_last_id` (its Python keyword `prefix` is `pfx` here). -/
def save_last_id (s3 : S3) (folder : String) (last_id : String) (pfx : String) : S3 :=
  put_s3_data s3 (folder ++ "/" ++ pfx ++ LAST_ID_FILE_NAME) last_id

/-- Embeds the Python format specifier `f'{n:06d}'`. -/
def pad6 (n : Nat) : String :=
  String.mk (List.replicate (6 - (toString n).length) '0') ++ toString n

/-- The guard of line 143: `last_key not in ['', None, 'None']` is the
negation of this predicate. -/
def last_key_is_degenerate : Option String → Bool
  | none => true
  | some s => s = "" || s = "None"

/-- Embeds the body of one iteration of the chunk loop of
`backup_collection` (lines 142-144): write the chunk body at the
numbered chunk key, then save the checkpoint unless the chunk's
`last_key` is the empty string, Python `None`, or the string `"None"`. -/
def chunk_store_update (folder pfx chunk_key data : String) (last_key : Option String)
    (s3 : S3) : S3 :=
  let s3a := put_s3_data s3 chunk_key data
  match last_key with
  | none => s3a
  | some k => if k = "" ∨ k = "None" then s3a else save_last_id s3a folder k pfx

/-- Embeds the chunk loop of `backup_collection` (lines 140-148): for
each yielded chunk, increment the file counter and apply the store
update for that chunk. -/
def backup_chunk_loop (folder pfx file_key : String) :
    List Chunk → S3 → Nat → S3 × Nat
  | [], s3, file_count => (s3, file_count)
  | (data, last_key, _) :: rest, s3, file_count =>
    let fc := file_count + 1
    backup_chunk_loop folder pfx file_key rest
      (chunk_store_update folder pfx (file_key ++ pad6 fc) data last_key s3) fc

/-- Model of Python `str.strip()`: drop leading and trailing whitespace. -/
def py_strip (s : String) : String :=
  String.mk (((s.data.dropWhile Char.isWhitespace).reverse.dropWhile Char.isWhitespace).reverse)

/-- Helper for `py_split_hyphen`: split a character list at every hyphen. -/
def split_hyphen_aux : List Char → List Char → List String
  | [], acc => [String.mk acc.reverse]
  | c :: rest, acc =>
    if c = '-' then String.mk acc.reverse :: split_hyphen_aux rest []
    else split_hyphen_aux rest (c :: acc)

/-- Model of Python `str.split('-')`: splitting on every hyphen, so the
result always has at least one element and the empty string splits to
a singleton list holding the empty string. -/
def py_split_hyphen (s : String) : List String :=
  split_hyphen_aux s.data []

/-- Model of Python `str.lower()` for the ASCII mode tokens involved. -/
def py_lower (s : String) : String :=
  String.mk (s.data.map Char.toLower)

/-- Decimal digit accumulator used to model `json.loads` of an integer. -/
def parse_nat_go : List Char → Nat → Option Nat
  | [], acc => some acc
  | c :: rest, acc =>
    if '0' ≤ c ∧ c ≤ '9' then parse_nat_go rest (acc * 10 + (c.toNat - '0'.toNat))
    else none

/-- Integer literal parser used to model `json.loads` of an integer. -/
def parse_int_chars : List Char → Option Int
  | [] => none
  | '-' :: rest =>
    if rest = [] then none else (parse_nat_go rest 0).map (fun n => -(n : Int))
  | l => (parse_nat_go l 0).map (fun n => (n : Int))

/-- Embeds `bson.json_util.loads` on the checkpoint domain (an integer
literal or the JSON literal `null`); any other content raises, which the
source's `except Exception` then swallows. -/
def loads_val (s : String) : Except String (Option Int) :=
  if s = "null" then Except.ok none
  else
    match parse_int_chars s.data with
    | some v => Except.ok (some v)
    | none => Except.error "JSONDecodeError"

/-- Embeds `backup_collection`: dispatch on the backup type, build the
folder, checkpoint prefix, file key and query exactly as lines 119-138
do, run the chunk loop, and return the updated store with the file
count; an unsupported backup type raises `ValueError`. -/
def backup_collection (s3 : S3) (docs : List Doc)
    (collection_name backup_type backup_id key_field : String) (limit : Nat) :
    Except String (S3 × Nat) :=
  if backup_type = FULL_BACKUP then
    Except.ok (backup_chunk_loop backup_id (collection_name ++ "-")
      (get_s3_file_key collection_name backup_id)
      (get_collection_data docs Query.empty key_field limit) s3 0)
  else if backup_type = INCREMENTAL_BACKUP then
    let query : Query :=
      match get_last_saved_key s3 collection_name with
      | Except.error _ => Query.empty
      | Except.ok saved =>
        match loads_val saved with
        | Except.error _ => Query.empty
        | Except.ok v => Query.gtOn key_field v
    Except.ok (backup_chunk_loop collection_name ""
      (get_s3_file_key (collection_name ++ "-" ++ backup_id) collection_name)
      (get_collection_data docs query key_field limit) s3 0)
  else
    Except.error ("Backup type " ++ backup_type ++ " is not supported.")

/-- The document store: collection name to documents in cursor order. -/
abbrev DB := List (String × List Doc)

/-- Look up a collection's documents (an unknown name is empty). -/
def db_find (db : DB) (collection_name : String) : List Doc :=
  (((db.find? (fun p => p.1 = collection_name)).map (fun p => p.2)).getD [])

/-- Embeds `backup` (lines 154-174): for each configured collection,
split the stripped mode token on hyphens, lowercase the first token, and
dispatch: `f`/`full` runs a full backup, `i`/`incremental` runs an
incremental backup with the optional second token as key field; any
other token matches no branch, so the collection is passed over and the
loop continues. -/
def backup (db : DB) (s3 : S3) (conf : List (String × String)) (backup_id : String)
    (limit : Nat) : Except String S3 :=
  match conf with
  | [] => Except.ok s3
  | (name, backup_conf) :: rest =>
    let tokens := py_split_hyphen (py_strip backup_conf)
    let backup_type := py_lower (py_strip (tokens.headD ""))
    if backup_type = "f" ∨ backup_type = FULL_BACKUP then
      match backup_collection s3 (db_find db name) name FULL_BACKUP backup_id
          MONGO_DB_ID_FIELD limit with
      | Except.ok r => backup db r.1 rest backup_id limit
      | Except.error e => Except.error e
    else if backup_type = "i" ∨ backup_type = INCREMENTAL_BACKUP then
      let key_field :=
        if tokens.length = 1 then MONGO_DB_ID_FIELD
        else py_strip ((tokens.drop 1).headD "")
      match backup_collection s3 (db_find db name) name INCREMENTAL_BACKUP backup_id
          key_field limit with
      | Except.ok r => backup db r.1 rest backup_id limit
      | Except.error e => Except.error e
    else
      backup db s3 rest backup_id limit

/-- Embeds `check_missing_collections`: the live collection names that
are not keys of the configuration; when any exist, raise carrying
exactly that list (the message interpolates it verbatim). -/
def check_missing_collections (db_collections : List String)
    (conf : List (String × String)) : Except (List String) Unit :=
  let existing_in_conf := conf.map (fun p => p.1)
  let missing_collections := db_collections.filter (fun x => decide (x ∉ existing_in_conf))
  if 0 < missing_collections.length then Except.error missing_collections
  else Except.ok ()

/-- Result of `restore_collection`: the target collection receiving the
inserts, the documents inserted in order, and the returned count. -/
structure RestoreResult where
  target_collection : String
  inserted : List Doc
  count : Nat
deriving DecidableEq

/-- Embeds `restore_collection`: read the single blob at
`folder/collection_name.bak` (failing when absent), deserialize it with
`loads` (passed in, as the inverse of the external serializer), insert
each document one at a time into `collection_name_restored`, and return
how many were inserted. -/
def restore_collection (s3 : S3) (loads_docs : String → List Doc)
    (collection_name folder : String) : Except String RestoreResult :=
  match s3Lookup s3 (folder ++ "/" ++ collection_name ++ ".bak") with
  | none => Except.error "ObjectNotFound"
  | some data =>
    let documents := loads_docs data
    Except.ok
      { target_collection := collection_name ++ "_restored"
        inserted := documents
        count := documents.length }

instance {ε α : Type} [DecidableEq ε] [DecidableEq α] : DecidableEq (Except ε α) := fun x y =>
  match x, y with
  | Except.ok a, Except.ok b =>
    if h : a = b then isTrue (by rw [h])
    else isFalse (fun hh => h (by injection hh))
  | Except.error a, Except.error b =>
    if h : a = b then isTrue (by rw [h])
    else isFalse (fun hh => h (by injection hh))
  | Except.ok _, Except.error _ => isFalse (fun hh => Except.noConfusion hh)
  | Except.error _, Except.ok _ => isFalse (fun hh => Except.noConfusion hh)

/-- The `count` component of the last chunk of an export (the exporter
always yields at least one chunk, so this is `none` only on `[]`). -/
def lastCount : List Chunk → Option Nat
  | [] => none
  | [c] => some c.2.2
  | _ :: c :: rest => lastCount (c :: rest)

/-- Every chunk of an export except the terminal one. -/
def non_terminal_chunks : List Chunk → List Chunk
  | [] => []
  | [_] => []
  | c :: rest => c :: non_terminal_chunks rest

/-- A chunk's `last_key` as the checkpoint guard sees it: `none` when
the guard of line 143 rejects it, the key itself otherwise. -/
def nondeg_val : Option String → Option String
  | none => none
  | some s => if s = "" ∨ s = "None" then none else some s

/-- The value the checkpoint holds after the chunk loop runs: the last
chunk's guard-accepted `last_key`, falling back to earlier chunks. -/
def last_saved_key_of : List Chunk → Option String
  | [] => none
  | c :: rest =>
    match last_saved_key_of rest with
    | some v => some v
    | none => nondeg_val c.2.1

/-- The last document of a cursor, if any. -/
def last_doc : List Doc → Option Doc
  | [] => none
  | [d] => some d
  | _ :: d :: rest => last_doc (d :: rest)

/-- The first option when present, the second otherwise. -/
def option_fallback (a b : Option String) : Option String :=
  match a with
  | some v => some v
  | none => b

/-- Three documents of serialized size 10 each, used for the spec's
two-chunk full-backup scenario over 3 documents. -/
def c1docs : List Doc :=
  [⟨"0123456789", [("_id", 1)]⟩, ⟨"0123456789", [("_id", 2)]⟩, ⟨"0123456789", [("_id", 3)]⟩]

/-- Two documents of serialized size 10 each. -/
def c4docs : List Doc :=
  [⟨"0123456789", [("_id", 1)]⟩, ⟨"0123456789", [("_id", 2)]⟩]

/-- One document with key 7. -/
def c3docs : List Doc := [⟨"d", [("_id", 7)]⟩]

/-- Two documents whose keys arrive in decreasing cursor order. -/
def c5docs : List Doc := [⟨"a", [("_id", 5)]⟩, ⟨"b", [("_id", 3)]⟩]

/-- A store holding the checkpoint 0 for collection c. -/
def c5s3 : S3 := [("c/last_key.txt", "0")]

/-- A chunk whose last key the guard rejects only writes the chunk blob. -/
theorem chunk_store_update_degenerate (folder pfx ck data : String) (lk : Option String)
    (s3 : S3) (h : last_key_is_degenerate lk = true) :
    chunk_store_update folder pfx ck data lk s3 = put_s3_data s3 ck data := by
  cases lk with
  | none => rfl
  | some k =>
    simp only [last_key_is_degenerate, Bool.or_eq_true, decide_eq_true_eq] at h
    simp only [chunk_store_update]
    rw [if_pos h]

/-- A chunk whose last key the guard accepts also saves the checkpoint. -/
theorem chunk_store_update_save (folder pfx ck data k : String) (s3 : S3)
    (h : ¬(k = "" ∨ k = "None")) :
    chunk_store_update folder pfx ck data (some k) s3 =
      save_last_id (put_s3_data s3 ck data) folder k pfx := by
  simp only [chunk_store_update]
  rw [if_neg h]

/-- C6: processing a chunk whose last key is Python None, the empty
string, or the string None writes only the chunk blob and never calls
the checkpoint save, so the stored checkpoint is untouched by that
chunk; a chunk with any other last key overwrites the checkpoint by
calling the save. -/
theorem c6_degenerate_key_guard (folder pfx file_key data : String) (lk : Option String)
    (cnt : Nat) (rest : List Chunk) (s3 : S3) (fc : Nat) :
    (last_key_is_degenerate lk = true →
      backup_chunk_loop folder pfx file_key ((data, lk, cnt) :: rest) s3 fc =
        backup_chunk_loop folder pfx file_key rest
          (put_s3_data s3 (file_key ++ pad6 (fc + 1)) data) (fc + 1)) ∧
    (∀ k, lk = some k → last_key_is_degenerate lk = false →
      backup_chunk_loop folder pfx file_key ((data, lk, cnt) :: rest) s3 fc =
        backup_chunk_loop folder pfx file_key rest
          (save_last_id (put_s3_data s3 (file_key ++ pad6 (fc + 1)) data) folder k pfx)
          (fc + 1)) := by
  constructor
  · intro h
    simp only [backup_chunk_loop]
    rw [chunk_store_update_degenerate folder pfx _ data lk s3 h]
  · intro k hk hnd
    subst hk
    simp only [last_key_is_degenerate, Bool.or_eq_false_iff, decide_eq_false_iff_not] at hnd
    simp only [backup_chunk_loop]
    rw [chunk_store_update_save folder pfx _ data k s3 (by tauto)]

/-- C6 witness: a chunk with last key Python None only writes the chunk
blob, and a chunk with last key 7 also saves the checkpoint. -/
theorem c6_degenerate_key_guard_witness :
    (backup_chunk_loop "f" "" "f/x.bak" [("[]", none, 0)] [] 0 =
      backup_chunk_loop "f" "" "f/x.bak" []
        (put_s3_data [] ("f/x.bak" ++ pad6 1) "[]") 1) ∧
    (backup_chunk_loop "f" "" "f/x.bak" [("[d]", some "7", 1)] [] 0 =
      backup_chunk_loop "f" "" "f/x.bak" []
        (save_last_id (put_s3_data [] ("f/x.bak" ++ pad6 1) "[d]") "f" "7" "") 1) :=
  ⟨(c6_degenerate_key_guard "f" "" "f/x.bak" "[]" none 0 [] [] 0).1 (by decide),
   (c6_degenerate_key_guard "f" "" "f/x.bak" "[d]" (some "7") 1 [] [] 0).2 "7" rfl (by decide)⟩

/-- C8: the configuration coverage check fails exactly when some live
collection name is missing from the configuration keys, and the failure
carries exactly the live collections absent from the configuration. -/
theorem c8_check_coverage (L : List String) (conf : List (String × String)) :
    (check_missing_collections L conf = Except.ok () ↔
      ∀ x ∈ L, x ∈ conf.map (fun p => p.1)) ∧
    (∀ m, check_missing_collections L conf = Except.error m →
      ∀ x, (x ∈ m ↔ x ∈ L ∧ x ∉ conf.map (fun p => p.1))) := by
  have hfil : ∀ x, x ∈ L.filter (fun x => decide (x ∉ conf.map (fun p => p.1))) ↔
      x ∈ L ∧ x ∉ conf.map (fun p => p.1) := by
    intro x
    simp [List.mem_filter]
  by_cases h : 0 < (L.filter (fun x => decide (x ∉ conf.map (fun p => p.1)))).length
  · have hc : check_missing_collections L conf =
        Except.error (L.filter (fun x => decide (x ∉ conf.map (fun p => p.1)))) := by
      simp only [check_missing_collections]
      rw [if_pos h]
    constructor
    · rw [hc]
      constructor
      · intro habs
        exact absurd habs (by simp)
      · intro hall
        exfalso
        obtain ⟨x, hx⟩ := List.exists_mem_of_length_pos h
        obtain ⟨hxL, hxk⟩ := (hfil x).mp hx
        exact hxk (hall x hxL)
    · intro m hm x
      rw [hc] at hm
      injection hm with hm
      subst hm
      exact hfil x
  · have hc : check_missing_collections L conf = Except.ok () := by
      simp only [check_missing_collections]
      rw [if_neg h]
    constructor
    · rw [hc]
      constructor
      · intro _ x hx
        by_contra hnot
        have hmem := (hfil x).mpr ⟨hx, hnot⟩
        exact h (List.length_pos.mpr (List.ne_nil_of_mem hmem))
      · intro _
        rfl
    · intro m hm
      rw [hc] at hm
      exact absurd hm (by simp)

/-- C8 witness: with live collections a and b and only a configured, the
check fails naming exactly b. -/
theorem c8_check_coverage_witness :
    ("b" ∈ ["b"] ↔ "b" ∈ ["a", "b"] ∧
      "b" ∉ ([("a", "full")] : List (String × String)).map (fun p => p.1)) :=
  (c8_check_coverage ["a", "b"] [("a", "full")]).2 ["b"] (by decide) "b"

/-- C9: restore reads exactly the blob at folder/collection.bak,
failing with the blob-absent error when it is missing, and otherwise
inserts each deserialized document in order into the collection named
collection_restored, returning the number inserted. -/
theorem c9_restore_single_blob (s3 : S3) (loads_docs : String → List Doc)
    (collection_name folder : String) :
    (s3Lookup s3 (folder ++ "/" ++ collection_name ++ ".bak") = none →
      restore_collection s3 loads_docs collection_name folder =
        Except.error "ObjectNotFound") ∧
    (∀ blob, s3Lookup s3 (folder ++ "/" ++ collection_name ++ ".bak") = some blob →
      restore_collection s3 loads_docs collection_name folder =
        Except.ok ⟨collection_name ++ "_restored", loads_docs blob,
          (loads_docs blob).length⟩) := by
  constructor
  · intro h
    unfold restore_collection
    rw [h]
  · intro blob h
    unfold restore_collection
    rw [h]

/-- C9 witness: a 2-document blob at 2024/users.bak restores 2 documents
into users_restored, and restoring from an empty store fails. -/
theorem c9_restore_single_blob_witness :
    (restore_collection [("2024/users.bak", "x")] (fun _ => [⟨"d1", []⟩, ⟨"d2", []⟩])
        "users" "2024" =
      Except.ok ⟨"users" ++ "_restored", [⟨"d1", []⟩, ⟨"d2", []⟩], 2⟩) ∧
    (restore_collection [] (fun _ => ([] : List Doc)) "users" "2024" =
      Except.error "ObjectNotFound") :=
  ⟨(c9_restore_single_blob [("2024/users.bak", "x")]
      (fun _ => [⟨"d1", []⟩, ⟨"d2", []⟩]) "users" "2024").2 "x" (by decide),
   (c9_restore_single_blob [] (fun _ => ([] : List Doc)) "users" "2024").1 (by decide)⟩

/-- C10: when the most recently appended document of a chunk lacks the
key field, the serialized last key is the string null, which the guard
of line 143 does not treat as degenerate, so the chunk loop does call
the checkpoint save and the stored checkpoint becomes the string null. -/
theorem c10_null_key_overwrites (key_field : String) (d : Doc) (hd : d.get key_field = none)
    (folder pfx file_key data : String) (cnt limit : Nat) (rest : List Chunk) (s3 : S3)
    (fc : Nat) (hlim : getsizeof ("[" ++ d.body) ≤ limit) :
    dumps_key (d.get key_field) = "null" ∧
    last_key_is_degenerate (some (dumps_key (d.get key_field))) = false ∧
    get_collection_data [d] Query.empty key_field limit =
      [("[" ++ d.body ++ "]", some "null", 1)] ∧
    backup_chunk_loop folder pfx file_key
        ((data, some (dumps_key (d.get key_field)), cnt) :: rest) s3 fc =
      backup_chunk_loop folder pfx file_key rest
        (save_last_id (put_s3_data s3 (file_key ++ pad6 (fc + 1)) data) folder "null" pfx)
        (fc + 1) ∧
    s3Lookup (save_last_id (put_s3_data s3 (file_key ++ pad6 (fc + 1)) data) folder "null" pfx)
        (folder ++ "/" ++ pfx ++ LAST_ID_FILE_NAME) = some "null" := by
  rw [hd]
  refine ⟨rfl, rfl, ?_, ?_, ?_⟩
  · show get_collection_data_go key_field limit [d] "[" true none 0 = _
    simp only [get_collection_data_go, if_true, hd, dumps_key]
    rw [if_neg (Nat.not_lt.mpr hlim)]
  · rfl
  · simp [s3Lookup, save_last_id, put_s3_data, List.find?]

/-- C10 witness: a document without the key field, in a chunk processed
by the loop, yields last key null and the checkpoint is overwritten. -/
theorem c10_null_key_overwrites_witness :
    dumps_key (Doc.get ⟨"x", []⟩ "_id") = "null" ∧
    last_key_is_degenerate (some (dumps_key (Doc.get ⟨"x", []⟩ "_id"))) = false ∧
    get_collection_data [⟨"x", []⟩] Query.empty "_id" 100 =
      [("[" ++ "x" ++ "]", some "null", 1)] ∧
    backup_chunk_loop "f" "p-" "f/x.bak"
        [("[x]", some (dumps_key (Doc.get ⟨"x", []⟩ "_id")), 1)] [] 0 =
      backup_chunk_loop "f" "p-" "f/x.bak" []
        (save_last_id (put_s3_data [] ("f/x.bak" ++ pad6 1) "[x]") "f" "null" "p-") 1 ∧
    s3Lookup (save_last_id (put_s3_data [] ("f/x.bak" ++ pad6 1) "[x]") "f" "null" "p-")
        ("f" ++ "/" ++ "p-" ++ LAST_ID_FILE_NAME) = some "null" :=
  c10_null_key_overwrites "_id" ⟨"x", []⟩ rfl "f" "p-" "f/x.bak" "[x]" 1 100 [] [] 0
    (by decide)

/-- C1 counterexample: three documents of serialized size 10 split at
byte limit 65 into two chunks; the yielded counts are 2 and then 3
because the counter is never reset, so the second chunk reports 3
although only one document was serialized into it, and the per-chunk
counts sum to 5, not 3. -/
theorem c1_counterexample :
    get_collection_data c1docs Query.empty "_id" 65 =
      [("[0123456789, 0123456789]", some "2", 2), ("[0123456789]", some "3", 3)] ∧
    2 + 3 ≠ 3 := by
  constructor
  · decide
  · decide

/-- C2 counterexample: a collection configured with the unrecognized
mode token 0 is skipped silently by backup: the run succeeds and the
store is unchanged, with no unsupported-backup-type failure. -/
theorem c2_counterexample :
    backup [("assets", [⟨"doc", [("_id", 1)]⟩])] [] [("assets", "0")] "2024" 100 =
      Except.ok [] := by decide

/-- C3 counterexample: a full backup of collection users under run id
2024 writes a checkpoint, but nothing is stored at
users/users-last_key.txt; the checkpoint lives at
2024/users-last_key.txt, under the run id folder. -/
theorem c3_counterexample :
    (backup_collection [] c3docs "users" "full" "2024" "_id" 1000).map
        (fun r => (s3Lookup r.1 "users/users-last_key.txt",
          s3Lookup r.1 "2024/users-last_key.txt")) =
      Except.ok (none, some "7") := by decide

/-- C4 counterexample: with byte limit 55 a chunk of byte length 12 is
closed as a non-terminal chunk, because the split decision compares the
CPython object size (49 bytes of header plus the characters), not the
byte length of the serialized array, against the limit. -/
theorem c4_counterexample :
    get_collection_data c4docs Query.empty "_id" 55 =
      [("[0123456789]", some "1", 1), ("[0123456789]", some "2", 2), ("[]", none, 2)] ∧
    ("[0123456789]" : String).length ≤ 55 := by
  constructor
  · decide
  · decide

/-- C5 counterexample: an incremental run from checkpoint 0 over a
cursor returning keys 5 then 3 stores checkpoint 3, the key of the last
document in cursor order, not the maximum 5. -/
theorem c5_counterexample :
    (backup_collection c5s3 c5docs "c" "incremental" "r1" "_id" 1000).map
        (fun r => s3Lookup r.1 ("c/" ++ LAST_ID_FILE_NAME)) =
      Except.ok (some "3") ∧
    (some "3" : Option String) ≠ some (dumps_key (some 5)) := by
  constructor
  · decide
  · decide

/-- C2 amended: a configuration entry whose first hyphen-separated
token, stripped and lowercased, is none of f, full, i, incremental is
not processed at all and raises nothing: backup silently skips it and
continues with the remaining collections (the unsupported-type
ValueError in backup_collection is unreachable through backup). -/
theorem c2_unrecognized_token_skipped (db : DB) (s3 : S3) (rest : List (String × String))
    (name backup_conf backup_id : String) (limit : Nat)
    (h : py_lower (py_strip ((py_split_hyphen (py_strip backup_conf)).headD "")) ∉
      (["f", FULL_BACKUP, "i", INCREMENTAL_BACKUP] : List String)) :
    backup db s3 ((name, backup_conf) :: rest) backup_id limit =
      backup db s3 rest backup_id limit := by
  simp only [List.mem_cons, List.mem_singleton, not_or] at h
  obtain ⟨h1, h2, h3, h4⟩ := h
  simp only [backup]
  rw [if_neg (by tauto), if_neg (by tauto)]

/-- C2 amended witness: the entry assets mapped to token 0 is skipped. -/
theorem c2_unrecognized_token_skipped_witness :
    backup [] [] [("assets", "0")] "2024" 100 = backup [] [] [] "2024" 100 :=
  c2_unrecognized_token_skipped [] [] [] "assets" "0" "2024" 100 (by decide)

/-- The exporter always yields at least one chunk. -/
theorem get_collection_data_go_ne_nil (key_field : String) (limit : Nat) :
    ∀ ds data isF lk c, get_collection_data_go key_field limit ds data isF lk c ≠ [] := by
  intro ds
  induction ds with
  | nil =>
    intro data isF lk c
    simp [get_collection_data_go]
  | cons d rest ih =>
    intro data isF lk c
    simp only [get_collection_data_go]
    split
    all_goals split
    all_goals first | exact ih _ _ _ _ | simp

/-- The last count is found past any leading chunk. -/
theorem lastCount_cons_of_ne_nil (c : Chunk) (l : List Chunk) (h : l ≠ []) :
    lastCount (c :: l) = lastCount l := by
  cases l with
  | nil => exact absurd rfl h
  | cons a as => rfl

/-- The last chunk the exporter loop yields carries the initial counter
plus the number of documents consumed, since the counter is never
reset between chunks. -/
theorem get_collection_data_go_lastCount (key_field : String) (limit : Nat) :
    ∀ ds data isF lk c,
      lastCount (get_collection_data_go key_field limit ds data isF lk c) =
        some (c + ds.length) := by
  intro ds
  induction ds with
  | nil =>
    intro data isF lk c
    simp [get_collection_data_go, lastCount]
  | cons d rest ih =>
    intro data isF lk c
    simp only [get_collection_data_go]
    split
    all_goals split
    all_goals try rw [lastCount_cons_of_ne_nil _ _
      (get_collection_data_go_ne_nil key_field limit rest _ _ _ _)]
    all_goals rw [ih]
    all_goals simp only [Option.some.injEq, List.length_cons]
    all_goals omega

/-- C1 amended: the third component of each yielded triple is the
running total of documents serialized since the export began, not the
count for that chunk alone; in particular the final chunk's count equals
the total number of documents the query matched (3 in the spec's
two-chunk scenario, where the yielded counts are 2 and then 3). -/
theorem c1_count_is_cumulative (docs : List Doc) (query : Query) (key_field : String)
    (limit : Nat) :
    lastCount (get_collection_data docs query key_field limit) =
      some (find docs query).length := by
  unfold get_collection_data
  rw [get_collection_data_go_lastCount]
  simp

/-- Non-terminal chunks of the exporter loop satisfy the object-size
bound: the accumulator at the split decision (one character shorter
than the closed chunk) had object size strictly above the limit. -/
theorem get_collection_data_go_non_terminal_size (key_field : String) (limit : Nat) :
    ∀ ds data isF lk c ch,
      ch ∈ non_terminal_chunks (get_collection_data_go key_field limit ds data isF lk c) →
      limit + 1 < getsizeof ch.1 := by
  intro ds
  induction ds with
  | nil =>
    intro data isF lk c ch h
    simp [get_collection_data_go, non_terminal_chunks] at h
  | cons d rest ih =>
    intro data isF lk c ch h
    simp only [get_collection_data_go] at h
    split at h
    all_goals split at h
    all_goals try exact ih _ _ _ _ _ h
    all_goals rename_i hs
    all_goals rcases hgo : get_collection_data_go key_field limit rest "[" true none (c + 1)
      with _ | ⟨e, l⟩
    all_goals try exact absurd hgo (get_collection_data_go_ne_nil key_field limit rest _ _ _ _)
    all_goals rw [hgo] at h
    all_goals simp only [non_terminal_chunks, List.mem_cons] at h
    all_goals rcases h with h | h
    all_goals try (rw [← hgo] at h; exact ih _ _ _ _ _ h)
    all_goals subst h
    all_goals simp only [getsizeof, String.length_append] at hs ⊢
    all_goals have hb : ("]" : String).length = 1 := rfl
    all_goals omega

/-- C4 amended: every chunk except the last is closed only when, at the
split decision, the CPython object size of the in-memory accumulator
(49 bytes of str header plus one byte per character; the accumulator is
the chunk minus its closing bracket) strictly exceeds the configured
limit - a byte-length measure may be up to 49 under the limit; the last
chunk may be any size including empty. -/
theorem c4_split_uses_getsizeof (docs : List Doc) (query : Query) (key_field : String)
    (limit : Nat) (ch : Chunk)
    (h : ch ∈ non_terminal_chunks (get_collection_data docs query key_field limit)) :
    limit + 1 < getsizeof ch.1 :=
  get_collection_data_go_non_terminal_size key_field limit _ _ _ _ _ _ h

/-- C4 amended witness: at limit 55 the non-terminal chunk of byte
length 12 had accumulator object size 60, strictly above 55. -/
theorem c4_split_uses_getsizeof_witness :
    55 + 1 < getsizeof "[0123456789]" :=
  c4_split_uses_getsizeof c4docs Query.empty "_id" 55 ("[0123456789]", some "1", 1)
    (by decide)

/-- Writing a key makes its lookup return the written value. -/
theorem s3Lookup_put_same (s3 : S3) (k v : String) :
    s3Lookup (put_s3_data s3 k v) k = some v := by
  simp [s3Lookup, put_s3_data, List.find?_cons_of_pos]

/-- Writing one key leaves lookups of a different key unchanged. -/
theorem s3Lookup_put_other (s3 : S3) (k v key : String) (h : k ≠ key) :
    s3Lookup (put_s3_data s3 k v) key = s3Lookup s3 key := by
  unfold s3Lookup put_s3_data
  rw [List.find?_cons_of_neg]
  simp [h]

/-- Writing never removes a key that is already present. -/
theorem s3Lookup_put_isSome (s3 : S3) (k v key : String)
    (h : (s3Lookup s3 key).isSome = true) :
    (s3Lookup (put_s3_data s3 k v) key).isSome = true := by
  by_cases hk : k = key
  · subst hk
    rw [s3Lookup_put_same]
    rfl
  · rw [s3Lookup_put_other s3 k v key hk]
    exact h

/-- The checkpoint save makes the checkpoint key hold the saved value. -/
theorem s3Lookup_save_same (s3 : S3) (folder v pfx : String) :
    s3Lookup (save_last_id s3 folder v pfx)
      (folder ++ "/" ++ pfx ++ LAST_ID_FILE_NAME) = some v :=
  s3Lookup_put_same s3 (folder ++ "/" ++ pfx ++ LAST_ID_FILE_NAME) v

/-- The per-chunk store update only writes, so a key that is present
stays present. -/
theorem chunk_store_update_isSome (folder pfx ck data : String) (lk : Option String)
    (s3 : S3) (key : String) (h : (s3Lookup s3 key).isSome = true) :
    (s3Lookup (chunk_store_update folder pfx ck data lk s3) key).isSome = true := by
  cases lk with
  | none => exact s3Lookup_put_isSome _ _ _ _ h
  | some k =>
    simp only [chunk_store_update]
    split
    · exact s3Lookup_put_isSome _ _ _ _ h
    · exact s3Lookup_put_isSome _ _ _ _ (s3Lookup_put_isSome _ _ _ _ h)

/-- The chunk loop only writes, so a key that is present stays present. -/
theorem backup_chunk_loop_isSome_mono (folder pfx file_key key : String) :
    ∀ chunks s3 fc, (s3Lookup s3 key).isSome = true →
      (s3Lookup (backup_chunk_loop folder pfx file_key chunks s3 fc).1 key).isSome = true := by
  intro chunks
  induction chunks with
  | nil =>
    intro s3 fc h
    exact h
  | cons c rest ih =>
    intro s3 fc h
    obtain ⟨data, lk, cnt⟩ := c
    simp only [backup_chunk_loop]
    exact ih _ _ (chunk_store_update_isSome _ _ _ _ _ _ _ h)

/-- If some chunk passes the degenerate-key guard, the chunk loop
leaves the checkpoint key populated. -/
theorem backup_chunk_loop_saves (folder pfx file_key : String) :
    ∀ chunks s3 fc, (∃ c ∈ chunks, last_key_is_degenerate c.2.1 = false) →
      (s3Lookup (backup_chunk_loop folder pfx file_key chunks s3 fc).1
        (folder ++ "/" ++ pfx ++ LAST_ID_FILE_NAME)).isSome = true := by
  intro chunks
  induction chunks with
  | nil =>
    intro s3 fc h
    simp at h
  | cons c rest ih =>
    intro s3 fc h
    obtain ⟨data, lk, cnt⟩ := c
    rcases h with ⟨c', hc', hdeg⟩
    rcases List.mem_cons.mp hc' with hh | hh
    · subst hh
      simp only [backup_chunk_loop]
      cases lk with
      | none => exact absurd hdeg (by simp [last_key_is_degenerate])
      | some k =>
        simp only [last_key_is_degenerate, Bool.or_eq_false_iff,
          decide_eq_false_iff_not] at hdeg
        apply backup_chunk_loop_isSome_mono
        rw [chunk_store_update_save folder pfx _ data k s3 (by tauto)]
        rw [s3Lookup_save_same]
        rfl
    · simp only [backup_chunk_loop]
      apply ih
      exact ⟨c', hh, hdeg⟩

/-- C3 amended: a full-mode backup that produces at least one chunk
passing the checkpoint guard stores the checkpoint under the run id
folder, at runID/collectionName-last_key.txt, not under a folder named
after the collection. -/
theorem c3_full_checkpoint_under_run_id (s3 : S3) (docs : List Doc)
    (collection_name backup_id key_field : String) (limit : Nat)
    (h : ∃ c ∈ get_collection_data docs Query.empty key_field limit,
      last_key_is_degenerate c.2.1 = false) :
    ∃ r, backup_collection s3 docs collection_name FULL_BACKUP backup_id key_field limit =
        Except.ok r ∧
      (s3Lookup r.1 (backup_id ++ "/" ++ (collection_name ++ "-") ++
        LAST_ID_FILE_NAME)).isSome = true := by
  have hbc : backup_collection s3 docs collection_name FULL_BACKUP backup_id key_field limit =
      Except.ok (backup_chunk_loop backup_id (collection_name ++ "-")
        (get_s3_file_key collection_name backup_id)
        (get_collection_data docs Query.empty key_field limit) s3 0) := by
    unfold backup_collection
    rw [if_pos rfl]
  exact ⟨_, hbc, backup_chunk_loop_saves _ _ _ _ _ _ h⟩

/-- C3 amended witness: the full backup of one document under run id
2024 leaves the checkpoint key 2024/users-last_key.txt populated. -/
theorem c3_full_checkpoint_under_run_id_witness :
    ∃ r, backup_collection [] c3docs "users" FULL_BACKUP "2024" "_id" 1000 =
        Except.ok r ∧
      (s3Lookup r.1 ("2024" ++ "/" ++ ("users" ++ "-") ++ LAST_ID_FILE_NAME)).isSome = true :=
  c3_full_checkpoint_under_run_id [] c3docs "users" "2024" "_id" 1000 (by decide)

/-- A nonempty string has positive length. -/
theorem length_pos_of_ne_empty (s : String) (h : s ≠ "") : 0 < s.length := by
  cases s with
  | mk data =>
    cases data with
    | nil => simp at h
    | cons c cs => simp [String.length]

/-- Zero padding to six digits never produces fewer than six characters. -/
theorem pad6_length (n : Nat) : 6 ≤ (pad6 n).length := by
  unfold pad6
  rw [String.length_append]
  have h : (String.mk (List.replicate (6 - (toString n).length) '0')).length =
      6 - (toString n).length := by
    show (List.replicate (6 - (toString n).length) '0').length = _
    exact List.length_replicate _ _
  omega

/-- In incremental mode the numbered chunk keys can never collide with
the checkpoint key: their lengths differ whenever the collection name
and the run id are nonempty. -/
theorem incr_chunk_key_ne (collection_name backup_id : String)
    (hn : collection_name ≠ "") (hb : backup_id ≠ "") (n : Nat) :
    get_s3_file_key (collection_name ++ "-" ++ backup_id) collection_name ++ pad6 n ≠
      collection_name ++ "/" ++ LAST_ID_FILE_NAME := by
  intro heq
  have hlen := congrArg String.length heq
  simp only [get_s3_file_key, String.length_append] at hlen
  have e1 : ("/" : String).length = 1 := rfl
  have e2 : ("-" : String).length = 1 := rfl
  have e3 : (".bak" : String).length = 4 := rfl
  have e4 : LAST_ID_FILE_NAME.length = 12 := rfl
  have e5 := pad6_length n
  have e6 := length_pos_of_ne_empty collection_name hn
  have e7 := length_pos_of_ne_empty backup_id hb
  omega

/-- The value under the checkpoint key after the chunk loop is the last
guard-accepted last key among the chunks, or the prior value when no
chunk passes the guard - provided no chunk key collides with the
checkpoint key. -/
theorem backup_chunk_loop_lookup (folder pfx file_key : String)
    (hne : ∀ n, file_key ++ pad6 n ≠ folder ++ "/" ++ pfx ++ LAST_ID_FILE_NAME) :
    ∀ chunks s3 fc,
      s3Lookup (backup_chunk_loop folder pfx file_key chunks s3 fc).1
          (folder ++ "/" ++ pfx ++ LAST_ID_FILE_NAME) =
        option_fallback (last_saved_key_of chunks)
          (s3Lookup s3 (folder ++ "/" ++ pfx ++ LAST_ID_FILE_NAME)) := by
  intro chunks
  induction chunks with
  | nil =>
    intro s3 fc
    rfl
  | cons c rest ih =>
    intro s3 fc
    obtain ⟨data, lk, cnt⟩ := c
    simp only [backup_chunk_loop]
    rw [ih]
    cases hrest : last_saved_key_of rest with
    | some v =>
      simp only [last_saved_key_of, hrest, option_fallback]
    | none =>
      simp only [last_saved_key_of, hrest, option_fallback]
      cases lk with
      | none =>
        simp only [nondeg_val]
        exact s3Lookup_put_other _ _ _ _ (hne (fc + 1))
      | some k =>
        by_cases hk : k = "" ∨ k = "None"
        · rw [chunk_store_update_degenerate folder pfx _ data _ s3
            (by rcases hk with h | h <;> simp [last_key_is_degenerate, h])]
          have hnd : nondeg_val (some k) = none := by
            simp only [nondeg_val]
            rw [if_pos hk]
          rw [hnd]
          exact s3Lookup_put_other _ _ _ _ (hne (fc + 1))
        · rw [chunk_store_update_save folder pfx _ data k s3 hk]
          have hnd : nondeg_val (some k) = some k := by
            simp only [nondeg_val]
            rw [if_neg hk]
          rw [hnd]
          exact s3Lookup_save_same _ _ _ _

/-- When the cursor is nonempty and the last document's serialized key
passes the guard, the last guard-accepted key of the yielded chunks is
the serialized key of the last document in cursor order. -/
theorem get_collection_data_go_last_saved (key_field : String) (limit : Nat) :
    ∀ ds data isF lk0 c dl, last_doc ds = some dl →
      dumps_key (dl.get key_field) ≠ "" → dumps_key (dl.get key_field) ≠ "None" →
      last_saved_key_of (get_collection_data_go key_field limit ds data isF lk0 c) =
        some (dumps_key (dl.get key_field)) := by
  intro ds
  induction ds with
  | nil =>
    intro data isF lk0 c dl hdl h1 h2
    simp [last_doc] at hdl
  | cons d rest ih =>
    intro data isF lk0 c dl hdl h1 h2
    cases rest with
    | nil =>
      simp only [last_doc] at hdl
      injection hdl with hdl
      subst hdl
      simp only [get_collection_data_go]
      split
      all_goals split
      all_goals simp only [last_saved_key_of, nondeg_val]
      all_goals rw [if_neg (by tauto)]
    | cons e t =>
      simp only [last_doc] at hdl
      rw [get_collection_data_go.eq_2]
      split
      all_goals split
      all_goals try exact ih _ _ _ _ dl hdl h1 h2
      all_goals simp only [last_saved_key_of]
      all_goals rw [ih _ _ _ _ dl hdl h1 h2]

/-- C5 amended: in an incremental run from a stored checkpoint K, every
exported document has its key field strictly above K; the checkpoint
stored after the run is the serialized key of the last document in
cursor order (which is the maximum only when the cursor yields keys in
nondecreasing order), here for nonempty runs whose last serialized key
passes the checkpoint guard and nonempty collection and run names. -/
theorem c5_checkpoint_is_last_cursor_key (s3 : S3) (docs : List Doc)
    (collection_name backup_id key_field ks : String) (K : Int) (dl : Doc) (limit : Nat)
    (h1 : s3Lookup s3 (collection_name ++ "/" ++ LAST_ID_FILE_NAME) = some ks)
    (h2 : loads_val ks = Except.ok (some K))
    (h3 : collection_name ≠ "") (h4 : backup_id ≠ "")
    (h5 : last_doc (find docs (Query.gtOn key_field (some K))) = some dl)
    (h6 : dumps_key (dl.get key_field) ≠ "")
    (h7 : dumps_key (dl.get key_field) ≠ "None") :
    (∀ d ∈ find docs (Query.gtOn key_field (some K)),
      ∃ v, d.get key_field = some v ∧ K < v) ∧
    ∃ r, backup_collection s3 docs collection_name INCREMENTAL_BACKUP backup_id key_field
        limit = Except.ok r ∧
      s3Lookup r.1 (collection_name ++ "/" ++ LAST_ID_FILE_NAME) =
        some (dumps_key (dl.get key_field)) := by
  constructor
  · intro d hd
    have hm := (List.mem_filter.mp hd).2
    simp only [matches_query] at hm
    cases hg : d.get key_field with
    | none =>
      rw [hg] at hm
      simp at hm
    | some x =>
      rw [hg] at hm
      simp only [decide_eq_true_eq] at hm
      exact ⟨x, rfl, hm⟩
  · have hkey : get_last_saved_key s3 collection_name = Except.ok ks := by
      unfold get_last_saved_key get_s3_data
      rw [h1]
    have hbc : backup_collection s3 docs collection_name INCREMENTAL_BACKUP backup_id
        key_field limit =
        Except.ok (backup_chunk_loop collection_name ""
          (get_s3_file_key (collection_name ++ "-" ++ backup_id) collection_name)
          (get_collection_data docs (Query.gtOn key_field (some K)) key_field limit) s3 0) := by
      unfold backup_collection
      rw [if_neg (by decide), if_pos rfl]
      simp only [hkey, h2]
    refine ⟨_, hbc, ?_⟩
    have hstr : collection_name ++ "/" ++ "" ++ LAST_ID_FILE_NAME =
        collection_name ++ "/" ++ LAST_ID_FILE_NAME := by
      rw [String.append_empty]
    have hne : ∀ n, get_s3_file_key (collection_name ++ "-" ++ backup_id) collection_name
        ++ pad6 n ≠ collection_name ++ "/" ++ "" ++ LAST_ID_FILE_NAME := by
      intro n
      rw [hstr]
      exact incr_chunk_key_ne collection_name backup_id h3 h4 n
    have hlook := backup_chunk_loop_lookup collection_name ""
      (get_s3_file_key (collection_name ++ "-" ++ backup_id) collection_name) hne
      (get_collection_data docs (Query.gtOn key_field (some K)) key_field limit) s3 0
    rw [hstr] at hlook
    rw [hlook]
    have hls : last_saved_key_of (get_collection_data docs
        (Query.gtOn key_field (some K)) key_field limit) =
        some (dumps_key (dl.get key_field)) := by
      unfold get_collection_data
      exact get_collection_data_go_last_saved key_field limit _ _ _ _ _ dl h5 h6 h7
    rw [hls]
    rfl

/-- C5 amended witness: from checkpoint 0 over cursor keys 5 then 3,
every exported document has key above 0 and the stored checkpoint is 3,
the key of the last document in cursor order. -/
theorem c5_checkpoint_is_last_cursor_key_witness :
    (∀ d ∈ find c5docs (Query.gtOn "_id" (some 0)),
      ∃ v, d.get "_id" = some v ∧ (0 : Int) < v) ∧
    ∃ r, backup_collection c5s3 c5docs "c" INCREMENTAL_BACKUP "r1" "_id" 1000 =
        Except.ok r ∧
      s3Lookup r.1 ("c" ++ "/" ++ LAST_ID_FILE_NAME) =
        some (dumps_key (Doc.get ⟨"b", [("_id", 3)]⟩ "_id")) :=
  c5_checkpoint_is_last_cursor_key c5s3 c5docs "c" "r1" "_id" "0" 0 ⟨"b", [("_id", 3)]⟩
    1000 (by decide) (by decide) (by decide) (by decide) (by decide) (by decide) (by decide)

/-- C7: rerunning an incremental backup when no document key exceeds the
stored checkpoint exports zero documents as exactly one empty terminal
chunk, writes only that chunk file, and leaves the stored checkpoint
value unchanged. -/
theorem c7_rerun_is_noop (s3 : S3) (docs : List Doc)
    (collection_name backup_id key_field ks : String) (K : Int) (limit : Nat)
    (h1 : s3Lookup s3 (collection_name ++ "/" ++ LAST_ID_FILE_NAME) = some ks)
    (h2 : loads_val ks = Except.ok (some K))
    (h3 : ∀ d ∈ docs, ∀ v, d.get key_field = some v → v ≤ K)
    (h4 : collection_name ≠ "") (h5 : backup_id ≠ "") :
    get_collection_data docs (Query.gtOn key_field (some K)) key_field limit =
      [("[]", none, 0)] ∧
    ∃ r, backup_collection s3 docs collection_name INCREMENTAL_BACKUP backup_id key_field
        limit = Except.ok r ∧ r.2 = 1 ∧
      s3Lookup r.1 (collection_name ++ "/" ++ LAST_ID_FILE_NAME) = some ks := by
  have hfil : find docs (Query.gtOn key_field (some K)) = [] := by
    rw [find, List.filter_eq_nil_iff]
    intro d hd
    simp only [matches_query]
    cases hg : d.get key_field with
    | none => simp
    | some x =>
      have hx := h3 d hd x hg
      simp only [decide_eq_true_eq]
      omega
  have hchunks : get_collection_data docs (Query.gtOn key_field (some K)) key_field limit =
      [("[]", none, 0)] := by
    unfold get_collection_data
    rw [hfil]
    rfl
  have hkey : get_last_saved_key s3 collection_name = Except.ok ks := by
    unfold get_last_saved_key get_s3_data
    rw [h1]
  have hbc : backup_collection s3 docs collection_name INCREMENTAL_BACKUP backup_id
      key_field limit =
      Except.ok (backup_chunk_loop collection_name ""
        (get_s3_file_key (collection_name ++ "-" ++ backup_id) collection_name)
        [("[]", none, 0)] s3 0) := by
    unfold backup_collection
    rw [if_neg (by decide), if_pos rfl]
    simp only [hkey, h2, hchunks]
  have hloop : backup_chunk_loop collection_name ""
      (get_s3_file_key (collection_name ++ "-" ++ backup_id) collection_name)
      [("[]", none, 0)] s3 0 =
      (put_s3_data s3 (get_s3_file_key (collection_name ++ "-" ++ backup_id) collection_name
        ++ pad6 1) "[]", 1) := rfl
  refine ⟨hchunks, ⟨(put_s3_data s3 (get_s3_file_key (collection_name ++ "-" ++ backup_id)
    collection_name ++ pad6 1) "[]", 1), ?_, rfl, ?_⟩⟩
  · rw [hbc, hloop]
  · show s3Lookup (put_s3_data s3 (get_s3_file_key (collection_name ++ "-" ++ backup_id)
        collection_name ++ pad6 1) "[]")
      (collection_name ++ "/" ++ LAST_ID_FILE_NAME) = some ks
    rw [s3Lookup_put_other _ _ _ _ (incr_chunk_key_ne collection_name backup_id h4 h5 1)]
    exact h1

/-- C7 witness: with checkpoint 9 stored and a single document of key 4,
the rerun yields one empty chunk and the checkpoint stays 9. -/
theorem c7_rerun_is_noop_witness :
    get_collection_data [⟨"a", [("_id", 4)]⟩] (Query.gtOn "_id" (some 9)) "_id" 1000 =
      [("[]", none, 0)] ∧
    ∃ r, backup_collection [("c2/last_key.txt", "9")] [⟨"a", [("_id", 4)]⟩] "c2"
        INCREMENTAL_BACKUP "r2" "_id" 1000 = Except.ok r ∧ r.2 = 1 ∧
      s3Lookup r.1 ("c2" ++ "/" ++ LAST_ID_FILE_NAME) = some "9" :=
  c7_rerun_is_noop [("c2/last_key.txt", "9")] [⟨"a", [("_id", 4)]⟩] "c2" "r2" "_id" "9" 9
    1000 (by decide) (by decide)
    (by
      intro d hd v hv
      simp only [List.mem_singleton] at hd
      subst hd
      simp only [Doc.get, List.find?] at hv
      simp at hv
      omega)
    (by decide) (by decide)

end BackupNRestore
